import Mathlib

/-!
Verification of the sentiment-analysis CLI (`src/main.rs`) against its
specification. The program's interactive control flow is embedded shallowly:
each `inquire` prompt outcome and each HTTP outcome is an input event, and the
three loops of the source (`user_input_feed_protocol`, `prompt_user_for_api_key`
and `main`) become step functions over explicit state types. `std::process::exit`
and Rust panics (`expect`, `todo!`) become terminal states carrying the exit
code or panic message.
-/

namespace SentimentCLI

/-- Outcome of an `inquire` prompt (`Text`, `Confirm` or `Select`): a value, the
`OperationCanceled` / `OperationInterrupted` error variants, or any other error
rendered as a message. -/
inductive PromptResult (α : Type) where
  | ok (value : α)
  | canceled
  | interrupted
  | err (msg : String)
deriving DecidableEq

/-- `colorize`'s `.red()`: wraps a string in ANSI escape codes. -/
def red (s : String) : String := "\x1b[31m" ++ s ++ "\x1b[0m"

/-- Outcome of one blocking `reqwest` round trip: either a transport-level
failure (the error's `to_string()`), or an HTTP response with a status code and
the result of reading its body (`none` when the body cannot be read). -/
inductive HttpOutcome where
  | transportError (detail : String)
  | response (status : Nat) (body : Option String)
deriving DecidableEq

/-- `reqwest::StatusCode::is_success`: status in `200..=299`. -/
def isSuccessStatus (s : Nat) : Bool := 200 ≤ s && s < 300

/-- Result of `sentiment_analysis_request`, with a third alternative modelling a
Rust panic (the `expect` on an unreadable body aborts the process rather than
returning). -/
inductive ReqResult where
  | ok (payload : String)
  | err (msg : String)
  | panicked (msg : String)
deriving DecidableEq

/-- `sentiment_analysis_request` from `src/main.rs`: `send()` errors are mapped
to `Err(e.to_string())` by the `?`; a success status reads the body (panicking
via `expect` if that fails) and returns it verbatim; a non-success status
returns the red-formatted status message. -/
def sentiment_analysis_request : HttpOutcome → ReqResult
  | .transportError e => .err e
  | .response status body =>
    if isSuccessStatus status then
      match body with
      | some b => .ok b
      | none => .panicked "Should have been able to read sentiment analysis."
    else
      .err (red ("Sentiment analysis failed with status " ++ toString status))

/-- The body of a success-status response is readable (the precondition under
which the `expect` in `sentiment_analysis_request` cannot fire). -/
def successBodyReadable : HttpOutcome → Bool
  | .response s none => ! isSuccessStatus s
  | _ => true

/-- Outcome of `fs::read_to_string` on the key file: contents on success, or an
I/O error (missing file, permission failure, ...). -/
inductive FsReadResult where
  | ok (contents : String)
  | err (e : String)
deriving DecidableEq

/-- `Result::unwrap_or_default` on the read result: errors become `""`. -/
def unwrap_or_default : FsReadResult → String
  | .ok s => s
  | .err _ => ""

/-- `check_for_api_key_file` from `src/main.rs`: read the fixed path, defaulting
to the empty string, and report `(false, key)` when the key is empty and
`(true, key)` otherwise. -/
def check_for_api_key_file (fileRead : FsReadResult) : Bool × String :=
  let api_key := unwrap_or_default fileRead
  if api_key.isEmpty then (false, api_key) else (true, api_key)

/-- State of the key file after a successful `fs::write` in
`save_api_key_to_file`: a subsequent read returns exactly the written key. -/
def fileAfterSave (huggingface_api_key : String) : FsReadResult :=
  .ok huggingface_api_key

/-- How the process ends: `std::process::exit(n)`, or a Rust panic. -/
inductive ProcExit where
  | code (n : Int)
  | panicked (msg : String)
deriving DecidableEq

/-- States of the interactive session loop `user_input_feed_protocol`, named as
in the specification: awaiting text input, classifying a submitted text,
reporting a successful payload, confirming a retry after a failure, or
terminated. -/
inductive LoopState where
  | awaitInput
  | classifying (text : String)
  | reporting (payload : String)
  | confirmRetry
  | terminated (exit : ProcExit)
deriving DecidableEq

/-- External events driving the session loop: the text prompt's outcome, the
HTTP outcome of the classification call, the retry confirmation's outcome, and
the silent fall-through from reporting back to the top of the `loop`. -/
inductive LoopEvent where
  | input (r : PromptResult String)
  | httpResp (h : HttpOutcome)
  | confirm (r : PromptResult Bool)
  | nextIter
deriving DecidableEq

/-- One step of `user_input_feed_protocol` from `src/main.rs`. Cancellation or
interruption of the text prompt exits with code 0; any other text-prompt error
exits with -1. A classification `Err` leads to the retry confirmation. There,
`Ok(true)` hits `todo!("Not yet implemented")` (a panic), `Ok(false)` falls
through the `if try_again` and the `loop` re-enters the text prompt, and
cancellation, interruption or any other confirmation error exits with -1.
`none` means the event is not the one this state consumes. -/
def loopStep : LoopState → LoopEvent → Option LoopState
  | .awaitInput, .input (.ok t) => some (.classifying t)
  | .awaitInput, .input .canceled => some (.terminated (.code 0))
  | .awaitInput, .input .interrupted => some (.terminated (.code 0))
  | .awaitInput, .input (.err _) => some (.terminated (.code (-1)))
  | .classifying _, .httpResp h =>
    match sentiment_analysis_request h with
    | .ok p => some (.reporting p)
    | .err _ => some .confirmRetry
    | .panicked m => some (.terminated (.panicked m))
  | .reporting _, .nextIter => some .awaitInput
  | .confirmRetry, .confirm (.ok true) =>
      some (.terminated (.panicked "not yet implemented: Not yet implemented"))
  | .confirmRetry, .confirm (.ok false) => some .awaitInput
  | .confirmRetry, .confirm .canceled => some (.terminated (.code (-1)))
  | .confirmRetry, .confirm .interrupted => some (.terminated (.code (-1)))
  | .confirmRetry, .confirm (.err _) => some (.terminated (.code (-1)))
  | _, _ => none

/-- States of the credential-acquisition loop `prompt_user_for_api_key`:
prompting for a key, validating a candidate by the probe call, and the three
ways out of the function — returning `Ok(key)`, returning `Err` (the `?` on
`send()`), or `std::process::exit` from inside the loop. -/
inductive AcqState where
  | prompting
  | validating (candidate : String)
  | acquired (key : String)
  | errReturn (e : String)
  | exited (code : Int)
deriving DecidableEq

/-- External events driving the acquisition loop: the key prompt's outcome and
the HTTP outcome of the probe call. -/
inductive AcqEvent where
  | keyInput (r : PromptResult String)
  | probeResp (h : HttpOutcome)
deriving DecidableEq

/-- One step of `prompt_user_for_api_key` from `src/main.rs`. Cancellation or
interruption of the key prompt exits with code 0; any other prompt error is
logged and the `loop` re-prompts. A candidate is validated by the probe call:
a transport failure makes `send()?` return `Err` from the function, a success
status returns `Ok(key)`, and any other status logs a message and re-prompts. -/
def acqStep : AcqState → AcqEvent → Option AcqState
  | .prompting, .keyInput (.ok k) => some (.validating k)
  | .prompting, .keyInput .canceled => some (.exited 0)
  | .prompting, .keyInput .interrupted => some (.exited 0)
  | .prompting, .keyInput (.err _) => some .prompting
  | .validating _, .probeResp (.transportError e) => some (.errReturn e)
  | .validating k, .probeResp (.response s _) =>
    if isSuccessStatus s then some (.acquired k) else some .prompting
  | _, _ => none

/-- Number of network round trips an event stands for: each consumed
`probeResp` is one probe call issued by `prompt_user_for_api_key`. -/
def probeCalls : AcqEvent → Nat
  | .keyInput _ => 0
  | .probeResp _ => 1

/-- Run the acquisition loop over a script of events, counting the probe calls
actually consumed; a mismatched event or an exhausted script stops the run. -/
def acqRun : AcqState → List AcqEvent → AcqState × Nat
  | s, [] => (s, 0)
  | s, e :: es =>
    match acqStep s e with
    | some s2 =>
      let r := acqRun s2 es
      (r.1, probeCalls e + r.2)
    | none => (s, 0)

/-- How `main`'s credential phase ends: with a key in hand, with the `expect`
panic on `prompt_user_for_api_key`'s `Err`, with an exit from inside the
acquisition loop, or with the event script exhausted mid-protocol. -/
inductive CredPhase where
  | usesKey (key : String)
  | panicked (msg : String)
  | exited (code : Int)
  | incomplete
deriving DecidableEq

/-- The credential phase of `main` from `src/main.rs`: consult
`check_for_api_key_file` first; when a key was saved, use it without ever
calling `prompt_user_for_api_key` (hence zero probe calls); otherwise run the
acquisition loop, where `Err` is turned into a panic by `.expect(...)`. The
second component counts the probe network calls made. -/
def main_credential_phase (fileRead : FsReadResult) (acqEvents : List AcqEvent) :
    CredPhase × Nat :=
  let r := check_for_api_key_file fileRead
  if r.1 then (.usesKey r.2, 0)
  else
    match acqRun .prompting acqEvents with
    | (.acquired k, n) => (.usesKey k, n)
    | (.errReturn _, n) =>
      (.panicked "Should have been able to get the content from API key if valid", n)
    | (.exited c, n) => (.exited c, n)
    | (_, n) => (.incomplete, n)

/-- The save-confirmation prompt in `main`: `Ok(reply)` is used, any `Err`
(including cancellation and interruption, which are not distinguished there)
exits with -1. -/
def main_save_confirm_step : PromptResult Bool → Except Int Bool
  | .ok reply => .ok reply
  | .canceled => .error (-1)
  | .interrupted => .error (-1)
  | .err _ => .error (-1)

/-- The protocol options offered by `main`'s `Select` prompt. -/
inductive ProtocolOptions where
  | Online
  | User
  | Quit
deriving DecidableEq

/-- The protocol-selection prompt in `main`: a choice is dispatched,
cancellation or interruption exits with 1, any other error exits with -1. -/
def main_protocol_select_step : PromptResult ProtocolOptions → Except Int ProtocolOptions
  | .ok c => .ok c
  | .canceled => .error 1
  | .interrupted => .error 1
  | .err _ => .error (-1)

/-- Helper: under the precondition that the body of a success-status response is
readable, `sentiment_analysis_request` never hits its panic branch. -/
theorem sentiment_request_no_panic_of_readable (h : HttpOutcome)
    (hr : successBodyReadable h = true) (m : String) :
    sentiment_analysis_request h ≠ .panicked m := by
  rcases h with d2 | ⟨s2, b2⟩
  · simp [sentiment_analysis_request]
  · rcases b2 with _ | b2
    · simp [successBodyReadable] at hr
      simp [sentiment_analysis_request, hr]
    · by_cases hs : isSuccessStatus s2 <;> simp [sentiment_analysis_request, hs]

/-- Claim C1: the claim (and the confirmation prompt's own help text) says that
declining the retry confirmation terminates the process; the code instead falls
through the `if try_again` with no else branch, so the `loop` re-enters the text
prompt — answering No at ConfirmRetry returns to AwaitInput. -/
theorem c1_decline_returns_to_awaitInput :
    loopStep .confirmRetry (.confirm (.ok false)) = some .awaitInput := rfl

/-- Claim C2: the claim says that confirming retry (Yes) at ConfirmRetry
transitions back to AwaitInput; the code instead executes
`todo!("Not yet implemented")`, which panics and aborts the process. -/
theorem c2_confirm_retry_panics :
    loopStep .confirmRetry (.confirm (.ok true)) =
      some (.terminated (.panicked "not yet implemented: Not yet implemented")) := rfl

/-- Claim C3, counterexample: cancelling the protocol-selection prompt exits
with status 1, not with the neutral status 0 the claim requires for every
prompt cancellation. -/
theorem c3_counterexample :
    main_protocol_select_step .canceled = .error 1 ∧ (1 : Int) ≠ 0 :=
  ⟨rfl, by decide⟩

/-- Claim C3, amended: cancellation or interruption exits with the neutral
status 0 at the session loop's text prompt and at the credential prompt, but
exits with -1 at the retry confirmation, with -1 at the save confirmation
(where cancellation is not distinguished from other errors), and with 1 at the
protocol selection. -/
theorem c3_cancellation_exit_codes :
    loopStep .awaitInput (.input .canceled) = some (.terminated (.code 0))
    ∧ loopStep .awaitInput (.input .interrupted) = some (.terminated (.code 0))
    ∧ acqStep .prompting (.keyInput .canceled) = some (.exited 0)
    ∧ acqStep .prompting (.keyInput .interrupted) = some (.exited 0)
    ∧ loopStep .confirmRetry (.confirm .canceled) = some (.terminated (.code (-1)))
    ∧ loopStep .confirmRetry (.confirm .interrupted) = some (.terminated (.code (-1)))
    ∧ main_save_confirm_step .canceled = .error (-1)
    ∧ main_save_confirm_step .interrupted = .error (-1)
    ∧ main_protocol_select_step .canceled = .error 1
    ∧ main_protocol_select_step .interrupted = .error 1 :=
  ⟨rfl, rfl, rfl, rfl, rfl, rfl, rfl, rfl, rfl, rfl⟩

/-- Claim C4, counterexample: a transport failure of the validation probe does
not re-enter Prompting — the `?` on `send()` makes `prompt_user_for_api_key`
return `Err`, modelled as the `errReturn` terminal state. -/
theorem c4_counterexample :
    acqStep (.validating "candidate") (.probeResp (.transportError "dns failure")) =
      some (.errReturn "dns failure")
    ∧ AcqState.errReturn "dns failure" ≠ .prompting :=
  ⟨rfl, by decide⟩

/-- Claim C4, amended: a probe rejected by the service (non-success status)
re-enters Prompting, but a transport failure is returned as `Err` from the
acquisition function (which `main` then turns into a panic via `expect`); and
the protocol never reaches Acquired except from Validating on a success-status
probe response. -/
theorem c4_validation_outcomes (k e : String) (s : Nat) (b : Option String) :
    (isSuccessStatus s = false →
      acqStep (.validating k) (.probeResp (.response s b)) = some .prompting)
    ∧ acqStep (.validating k) (.probeResp (.transportError e)) = some (.errReturn e)
    ∧ (∀ st ev k2, acqStep st ev = some (.acquired k2) →
        ∃ s2 b2, st = .validating k2 ∧ ev = .probeResp (.response s2 b2) ∧
          isSuccessStatus s2 = true) := by
  refine ⟨?_, rfl, ?_⟩
  · intro hs
    simp [acqStep, hs]
  · intro st ev k2 h
    rcases st with _ | k3 | k3 | d | c
    · rcases ev with (v | _ | _ | m) | (d2 | ⟨s2, b2⟩) <;> simp [acqStep] at h
    · rcases ev with (v | _ | _ | m) | (d2 | ⟨s2, b2⟩) <;> simp [acqStep] at h
      by_cases hs : isSuccessStatus s2
      · rw [if_pos hs] at h
        simp at h
        exact ⟨s2, b2, by rw [h], rfl, hs⟩
      · rw [if_neg hs] at h
        simp at h
    · rcases ev with (v | _ | _ | m) | (d2 | ⟨s2, b2⟩) <;> simp [acqStep] at h
    · rcases ev with (v | _ | _ | m) | (d2 | ⟨s2, b2⟩) <;> simp [acqStep] at h
    · rcases ev with (v | _ | _ | m) | (d2 | ⟨s2, b2⟩) <;> simp [acqStep] at h

/-- Witness for claim C4's amended theorem at a concrete rejected probe. -/
theorem c4_validation_outcomes_witness :
    acqStep (.validating "k") (.probeResp (.response 401 none)) = some .prompting :=
  (c4_validation_outcomes "k" "e" 401 none).1 (by decide)

/-- Claim C5: the classifier call yields `Ok` with the body verbatim exactly on
a success status, `Err` naming the status on a non-success status, `Err` with
the transport detail on a transport failure, and (whenever the body of a
success response is readable) no other outcome. -/
theorem c5_request_outcomes (d b : String) (s : Nat) :
    sentiment_analysis_request (.transportError d) = .err d
    ∧ (isSuccessStatus s = true →
        sentiment_analysis_request (.response s (some b)) = .ok b)
    ∧ (isSuccessStatus s = false →
        sentiment_analysis_request (.response s (some b)) =
          .err (red ("Sentiment analysis failed with status " ++ toString s)))
    ∧ (∀ h, successBodyReadable h = true → ∀ m,
        sentiment_analysis_request h ≠ .panicked m) := by
  refine ⟨rfl, ?_, ?_, ?_⟩
  · intro hs
    simp [sentiment_analysis_request, hs]
  · intro hs
    simp [sentiment_analysis_request, hs]
  · intro h hr m
    exact sentiment_request_no_panic_of_readable h hr m

/-- Witness for claim C5's theorem at a concrete success response. -/
theorem c5_request_outcomes_witness :
    sentiment_analysis_request (.response 200 (some "payload")) = .ok "payload" :=
  (c5_request_outcomes "boom" "payload" 200).2.1 (by decide)

/-- Claim C6, counterexample: a key-prompt failure other than cancellation or
interruption is only logged — the acquisition loop re-enters Prompting instead
of terminating the process. -/
theorem c6_counterexample :
    acqStep .prompting (.keyInput (.err "terminal io failure")) = some .prompting :=
  rfl

/-- Claim C6, amended: in the Credential Acquisition Protocol, a prompt failure
other than cancellation or interruption is logged and the protocol re-enters
Prompting; it never exits the process. -/
theorem c6_prompt_error_reprompts (e : String) :
    acqStep .prompting (.keyInput (.err e)) = some .prompting
    ∧ ∀ c, acqStep .prompting (.keyInput (.err e)) ≠ some (.exited c) := by
  refine ⟨rfl, fun c h => ?_⟩
  simp [acqStep] at h

/-- Claim C7: the Credential Store load returns no credential exactly when the
read fails (missing or unreadable path) or the file holds the empty string; it
always returns to the caller, and the missing-file and empty-file cases are
indistinguishable. -/
theorem c7_load_contract (fr : FsReadResult) :
    ((check_for_api_key_file fr).1 = false ↔ fr = .ok "" ∨ ∃ e, fr = .err e)
    ∧ (∀ e, check_for_api_key_file (.err e) = check_for_api_key_file (.ok ""))
    ∧ check_for_api_key_file (.ok "") = (false, "") := by
  refine ⟨?_, fun e => rfl, rfl⟩
  rcases fr with s | e
  · by_cases hs : s = ""
    · subst hs
      simp [check_for_api_key_file, unwrap_or_default]
      decide
    · simp [check_for_api_key_file, unwrap_or_default, String.isEmpty_iff, hs]
  · simp [check_for_api_key_file, unwrap_or_default]
    decide

/-- Claim C8, counterexample: saving the empty credential and loading again
yields `(false, "")` — no credential is returned, so the round trip fails for
the empty value. -/
theorem c8_counterexample :
    check_for_api_key_file (fileAfterSave "") = (false, "") := rfl

/-- Claim C8, amended: for every non-empty credential value, a successful save
followed by a load returns exactly that value. -/
theorem c8_roundtrip (key : String) (hk : key ≠ "") :
    check_for_api_key_file (fileAfterSave key) = (true, key) := by
  simp [check_for_api_key_file, fileAfterSave, unwrap_or_default,
    String.isEmpty_iff, hk]

/-- Witness for claim C8's amended theorem at a concrete non-empty key. -/
theorem c8_roundtrip_witness :
    check_for_api_key_file (fileAfterSave "hf_token") = (true, "hf_token") :=
  c8_roundtrip "hf_token" (by decide)

/-- Claim C9: when a stored credential loads successfully, `main` uses it with
zero probe calls (`prompt_user_for_api_key`, the only site of the probe, is
never invoked); and the Validating state — the only state that consumes a probe
response — is entered only from Prompting on an operator-entered value. -/
theorem c9_saved_key_skips_probe :
    (∀ fr evs, (check_for_api_key_file fr).1 = true →
      main_credential_phase fr evs = (.usesKey (check_for_api_key_file fr).2, 0))
    ∧ (∀ st ev k, acqStep st ev = some (.validating k) →
      st = .prompting ∧ ev = .keyInput (.ok k)) := by
  constructor
  · intro fr evs hs
    simp [main_credential_phase, hs]
  · intro st ev k h
    rcases st with _ | k3 | k3 | d | c
    · rcases ev with (v | _ | _ | m) | (d2 | ⟨s2, b2⟩) <;> simp [acqStep] at h
      subst h
      exact ⟨rfl, rfl⟩
    · rcases ev with (v | _ | _ | m) | (d2 | ⟨s2, b2⟩) <;> simp [acqStep] at h
      split at h <;> simp at h
    · rcases ev with (v | _ | _ | m) | (d2 | ⟨s2, b2⟩) <;> simp [acqStep] at h
    · rcases ev with (v | _ | _ | m) | (d2 | ⟨s2, b2⟩) <;> simp [acqStep] at h
    · rcases ev with (v | _ | _ | m) | (d2 | ⟨s2, b2⟩) <;> simp [acqStep] at h

/-- Witness for claim C9's theorem: with a saved key on file, the credential
phase uses it and makes zero probe calls even when a probe response is
scripted. -/
theorem c9_saved_key_skips_probe_witness :
    main_credential_phase (.ok "key") [.probeResp (.transportError "x")] =
      (.usesKey (check_for_api_key_file (.ok "key")).2, 0) :=
  c9_saved_key_skips_probe.1 (.ok "key") [.probeResp (.transportError "x")] (by decide)

/-- Claim C10: a success-status response whose body cannot be read makes the
classifier call panic via `expect`; under the precondition that success bodies
are readable, the panic branch is unreachable. -/
theorem c10_unreadable_body_panics (s : Nat) :
    (isSuccessStatus s = true →
      sentiment_analysis_request (.response s none) =
        .panicked "Should have been able to read sentiment analysis.")
    ∧ (∀ h, successBodyReadable h = true → ∀ m,
        sentiment_analysis_request h ≠ .panicked m) := by
  refine ⟨?_, ?_⟩
  · intro hs
    simp [sentiment_analysis_request, hs]
  · intro h hr m
    exact sentiment_request_no_panic_of_readable h hr m

/-- Witness for claim C10's theorem at a concrete unreadable success body. -/
theorem c10_unreadable_body_panics_witness :
    sentiment_analysis_request (.response 200 none) =
      .panicked "Should have been able to read sentiment analysis." :=
  (c10_unreadable_body_panics 200).1 (by decide)

end SentimentCLI
